import Mathlib

/-!
Shallow embedding of `src/app.py` (FAQ management app: Notion-backed CRUD with
AI-assisted suggestions), together with theorems settling the specification
claims about it.

External effects (HTTP calls to the document store and the generative API) are
modelled by passing the remote's response explicitly: a successful response is
`Except.ok`, a raised transport/parse exception is `Except.error`.  Machine
state (`st.session_state`) is explicit record-passing.
-/

namespace FaqApp

/-- `ALLOWED_DOMAIN` constant (app.py line 15). -/
def ALLOWED_DOMAIN : String := "@dai.co.jp"

/-- Python `s.endswith(p)` on strings, as a suffix test on the character list. -/
def pyEndsWith (s p : String) : Bool := p.data.isSuffixOf s.data

/-- Python `s.isdigit()` (ASCII range): non-empty and every character a digit. -/
def pyIsDigit (s : String) : Bool := !s.isEmpty && s.data.all Char.isDigit

/-- Python `int(s)` on an all-digit decimal string. -/
def pyInt (s : String) : Nat := s.data.foldl (fun acc c => acc * 10 + (c.toNat - '0'.toNat)) 0

/-- Python `f"\x7bn:04d\x7d"` for a non-negative integer: decimal, zero-padded to
width 4 (app.py line 242). -/
def pad4 (n : Nat) : String :=
  let s := toString n
  if s.length < 4 then String.mk (List.replicate (4 - s.length) '0') ++ s else s

/-- The `ID` property of one query result (app.py lines 118-124): `title` is
`some c` when the title list is populated with text content `c`, likewise
`rich_text`; `none` models an absent/empty property list. -/
structure IdProperty where
  title : Option String
  rich_text : Option String
deriving DecidableEq

/-- Extraction of the id string from one result (app.py lines 118-124): the
title-type property when populated, else the rich-text property, else `""`. -/
def extractId (p : IdProperty) : String :=
  match p.title with
  | some s => s
  | none =>
    match p.rich_text with
    | some s => s
    | none => ""

/-- One page of a paginated query response: its `results` array and the
`has_more` flag.  `next_cursor` is modelled implicitly: the server's pages are
given in cursor order, so following `next_cursor` means consuming the next
element of the page list. -/
structure Page where
  results : List IdProperty
  has_more : Bool
deriving DecidableEq

/-- The ids kept from one page's results (app.py lines 116-127): extract, then
keep values that are truthy (non-empty) and all-digit. -/
def pageIds (results : List IdProperty) : List String :=
  (results.map extractId).filter (fun s => !s.isEmpty && pyIsDigit s)

/-- `NotionClient.get_all_faq_ids` (app.py lines 99-135).  The remote is a
sequence of per-request outcomes: `Except.ok p` is a page response, and
`Except.error e` is an exception raised by that request.  The `while has_more`
loop appends each page's kept ids; the surrounding `try/except` catches an
exception, displays it, and returns the ids collected so far (it does NOT
re-raise), which the recursion models by stopping with `[]` at an error. -/
def get_all_faq_ids : List (Except String Page) → List String
  | [] => []
  | .error _ :: _ => []
  | .ok p :: rest => pageIds p.results ++ (if p.has_more then get_all_faq_ids rest else [])

/-- The numeric values of the ids that are all-digit and exactly 4 characters
long (app.py line 239, the list comprehension inside `max`). -/
def fourDigitNums (all_ids : List String) : List Nat :=
  (all_ids.filter (fun id => pyIsDigit id && id.length == 4)).map pyInt

/-- `get_next_faq_id` (app.py lines 230-246) given the id list returned by
`get_all_faq_ids`.  Empty list returns `"0001"`; otherwise the maximum of the
4-digit numeric ids plus one, zero-padded.  Python's `max` on an empty sequence
raises `ValueError`, caught by the `except` which returns `"0001"`: that branch
is the `[]` case of the match. -/
def get_next_faq_id (all_ids : List String) : String :=
  if all_ids.isEmpty then "0001"
  else
    match fourDigitNums all_ids with
    | [] => "0001"
    | x :: xs => pad4 (xs.foldl max x + 1)

/-- `get_next_faq_id` applied to a live paginated listing (app.py line 233):
the listing itself never raises, so the allocator's own `except` only ever
fires for the empty-`max` case folded into `get_next_faq_id`. -/
def get_next_faq_id_paged (pages : List (Except String Page)) : String :=
  get_next_faq_id (get_all_faq_ids pages)

/- ### Helper lemmas about `foldl max` -/

theorem le_foldl_max (xs : List Nat) (x : Nat) : x ≤ xs.foldl max x := by
  induction xs generalizing x with
  | nil => exact Nat.le_refl x
  | cons y ys ih => exact Nat.le_trans (Nat.le_max_left x y) (ih (max x y))

theorem mem_le_foldl_max (xs : List Nat) (x : Nat) : ∀ k ∈ xs, k ≤ xs.foldl max x := by
  induction xs generalizing x with
  | nil => intro k hk; cases hk
  | cons y ys ih =>
    intro k hk
    rcases List.mem_cons.mp hk with rfl | hk
    · exact Nat.le_trans (Nat.le_max_right x k) (le_foldl_max ys (max x k))
    · exact ih (max x y) k hk

theorem foldl_max_le (xs : List Nat) (x m : Nat) (hx : x ≤ m) (h : ∀ k ∈ xs, k ≤ m) :
    xs.foldl max x ≤ m := by
  induction xs generalizing x with
  | nil => exact hx
  | cons y ys ih =>
    exact ih (max x y) (Nat.max_le.mpr ⟨hx, h y (List.mem_cons_self y ys)⟩)
      (fun k hk => h k (List.mem_cons_of_mem y hk))

/-- C1: `get_next_faq_id` on an empty id list returns `"0001"`; on a list whose
4-character all-digit entries have maximum `m` it returns `m + 1` zero-padded to
4 decimal digits; in particular on ids `"0001","0003","0007"` it returns
`"0008"`, and entries like `"12"` and `"ABCD"` are excluded from the max. -/
theorem get_next_faq_id_spec :
    get_next_faq_id [] = "0001"
    ∧ (∀ all_ids m, m ∈ fourDigitNums all_ids → (∀ k ∈ fourDigitNums all_ids, k ≤ m) →
        get_next_faq_id all_ids = pad4 (m + 1))
    ∧ get_next_faq_id ["0001", "0003", "0007"] = "0008"
    ∧ get_next_faq_id ["0001", "12", "ABCD", "0003", "0007"] = "0008" := by
  refine ⟨rfl, ?_, by decide, by decide⟩
  intro all_ids m hm hub
  cases all_ids with
  | nil => cases hm
  | cons a l =>
    rw [get_next_faq_id]
    simp only [List.isEmpty_cons, if_false, Bool.false_eq_true]
    cases h4 : fourDigitNums (a :: l) with
    | nil => rw [h4] at hm; cases hm
    | cons x xs =>
      rw [h4] at hm hub
      have hle : xs.foldl max x ≤ m :=
        foldl_max_le xs x m (hub x (List.mem_cons_self x xs)) fun k hk =>
          hub k (List.mem_cons_of_mem x hk)
      have hge : m ≤ xs.foldl max x := by
        rcases List.mem_cons.mp hm with rfl | hmem
        · exact le_foldl_max xs m
        · exact mem_le_foldl_max xs x m hmem
      show pad4 (xs.foldl max x + 1) = pad4 (m + 1)
      rw [Nat.le_antisymm hle hge]

/-- Witness for C1 at a concrete input: the filtered maximum of
`["0002","0005"]` is `5` and the allocator returns `pad4 6 = "0006"`. -/
theorem get_next_faq_id_spec_witness :
    5 ∈ fourDigitNums ["0002", "0005"]
    ∧ (∀ k ∈ fourDigitNums ["0002", "0005"], k ≤ 5)
    ∧ get_next_faq_id ["0002", "0005"] = pad4 6 :=
  ⟨by decide, by decide,
    get_next_faq_id_spec.2.1 ["0002", "0005"] 5 (by decide) (by decide)⟩

/- ### C2: pagination drains every page -/

theorem pageIds_append (a b : List IdProperty) :
    pageIds (a ++ b) = pageIds a ++ pageIds b := by
  simp [pageIds]

/-- C2: when every non-final page reports `has_more = true` (the simulated
cursor chain), `get_all_faq_ids` drains all pages and returns, in encounter
order, exactly the extracted id values (title property preferred over
rich-text) that are non-empty and purely numeric, over the concatenation of all
pages' results. -/
theorem get_all_faq_ids_drains_pages (pages : List Page)
    (h : ∀ p ∈ pages.dropLast, p.has_more = true) :
    get_all_faq_ids (pages.map Except.ok) = pageIds (pages.flatMap Page.results) := by
  induction pages with
  | nil => rfl
  | cons p rest ih =>
    cases rest with
    | nil =>
      show pageIds p.results ++ (if p.has_more then get_all_faq_ids [] else []) = _
      cases p.has_more <;> simp [get_all_faq_ids, pageIds_append, pageIds]
    | cons q rest2 =>
      have hp : p.has_more = true := by
        apply h
        rw [List.dropLast_cons_of_ne_nil (by simp)]
        exact List.mem_cons_self _ _
      have hrest : ∀ r ∈ (q :: rest2).dropLast, r.has_more = true := by
        intro r hr
        apply h
        rw [List.dropLast_cons_of_ne_nil (by simp)]
        exact List.mem_cons_of_mem _ hr
      show pageIds p.results ++
          (if p.has_more then get_all_faq_ids ((q :: rest2).map Except.ok) else []) = _
      rw [hp, if_pos rfl, ih hrest]
      simp [List.flatMap_cons, pageIds_append]

/-- Witness for C2 at a concrete two-page result set (`has_more: true` then
`false`): both pages' numeric ids appear in order; `"ABCD"` and `""` are
dropped. -/
theorem get_all_faq_ids_drains_pages_witness :
    (∀ p ∈ ([⟨[⟨some "0001", none⟩, ⟨some "ABCD", none⟩], true⟩,
             ⟨[⟨none, some "0002"⟩, ⟨none, none⟩], false⟩] : List Page).dropLast,
       p.has_more = true)
    ∧ get_all_faq_ids
        (([⟨[⟨some "0001", none⟩, ⟨some "ABCD", none⟩], true⟩,
           ⟨[⟨none, some "0002"⟩, ⟨none, none⟩], false⟩] : List Page).map Except.ok) =
        ["0001", "0002"] :=
  ⟨by decide,
    (get_all_faq_ids_drains_pages
      [⟨[⟨some "0001", none⟩, ⟨some "ABCD", none⟩], true⟩,
       ⟨[⟨none, some "0002"⟩, ⟨none, none⟩], false⟩] (by decide)).trans (by decide)⟩

/- ### C5: failure handling of the allocator (corrected) -/

/-- A single page holding the id `"0005"` and announcing more pages. -/
def page0005 : Page := ⟨[⟨some "0005", none⟩], true⟩

/-- Counterexample to C5 as stated: when the listing call fails partway through
pagination — after one page containing `"0005"` — `get_next_faq_id` computes
`max + 1` over the ids collected before the failure and returns `"0006"`, not
the claimed fallback `"0001"`. -/
theorem next_id_partway_failure_not_0001 :
    get_next_faq_id_paged [Except.ok page0005, Except.error "network failure"] = "0006"
    ∧ ("0006" : String) ≠ "0001" := by
  constructor
  · decide
  · decide

/-- C5 amended: a `max` over an empty filtered id set is caught and yields
`"0001"`, and a listing failure before any page is drained yields `"0001"`; but
a listing failure partway through pagination is caught inside
`get_all_faq_ids`, which returns the ids collected so far, and
`get_next_faq_id` then computes from that partial list instead of falling back
to `"0001"`. -/
theorem next_id_failure_fallback :
    (∀ all_ids, fourDigitNums all_ids = [] → get_next_faq_id all_ids = "0001")
    ∧ (∀ e rest, get_next_faq_id_paged (Except.error e :: rest) = "0001")
    ∧ (∀ (pages : List Page) e rest, get_all_faq_ids (pages.map Except.ok ++ Except.error e :: rest) =
        get_all_faq_ids (pages.map Except.ok))
    ∧ get_next_faq_id_paged [Except.ok page0005, Except.error "network failure"] = "0006" := by
  refine ⟨?_, fun e rest => rfl, ?_, by decide⟩
  · intro all_ids h4
    cases all_ids with
    | nil => rfl
    | cons a l =>
      rw [get_next_faq_id]
      simp only [List.isEmpty_cons, if_false, Bool.false_eq_true]
      rw [h4]
  · intro pages e rest
    induction pages with
    | nil => rfl
    | cons p ps ih =>
      show pageIds p.results ++
          (if p.has_more then get_all_faq_ids (ps.map Except.ok ++ Except.error e :: rest)
           else []) = pageIds p.results ++ (if p.has_more then get_all_faq_ids (ps.map Except.ok)
           else [])
      cases p.has_more <;> simp [ih]

/-- Witness for C5 (amended) at a concrete input: a non-empty id list whose
filtered set is empty falls back to `"0001"`. -/
theorem next_id_failure_fallback_witness :
    fourDigitNums ["12", "ABCD"] = [] ∧ get_next_faq_id ["12", "ABCD"] = "0001" :=
  ⟨by decide, next_id_failure_fallback.1 ["12", "ABCD"] (by decide)⟩

/- ### Database client create / find / update -/

/-- An HTTP response as the client inspects it: only the status code matters to
`add_faq` / `update_faq`. -/
structure HttpResponse where
  status_code : Nat
deriving DecidableEq

/-- The record fields `add_faq` maps onto the create payload (app.py lines
40-59). -/
structure FaqData where
  faq_id : String
  question : String
  answer : String
  category : String
deriving DecidableEq

/-- `NotionClient.add_faq` (app.py lines 36-66): POSTs the payload built from
`faq_data`; returns `status_code == 200`; a raised exception is caught,
displayed, and turned into `False`. -/
def add_faq (_faq_data : FaqData) (resp : Except String HttpResponse) : Bool :=
  match resp with
  | .ok r => r.status_code == 200
  | .error _ => false

/-- The fields `update_faq` patches (app.py lines 141-156). -/
structure UpdateData where
  question : String
  answer : String
  category : String
deriving DecidableEq

/-- `NotionClient.update_faq` (app.py lines 137-163): PATCHes the record at
`page_id`; returns `status_code == 200`; a raised exception is caught,
displayed, and turned into `False`. -/
def update_faq (_page_id : String) (_faq_data : UpdateData) (resp : Except String HttpResponse) :
    Bool :=
  match resp with
  | .ok r => r.status_code == 200
  | .error _ => false

/-- One row of a query response as `search_faq_by_id` reads it (app.py lines
84-93): the internal page id plus the extracted property contents, each `none`
when the nested `.get` chain bottoms out (extracted as `""`). -/
structure QueryRow where
  id : String
  question : Option String
  answer : Option String
  category : Option String
deriving DecidableEq

/-- The record returned by a successful search (app.py lines 87-93). -/
structure FaqRecord where
  page_id : String
  faq_id : String
  question : String
  answer : String
  category : String
deriving DecidableEq

/-- `NotionClient.search_faq_by_id` (app.py lines 68-97): returns the first
result mapped into a record, `none` on no match; a raised transport/parse
exception is caught, displayed, and turned into `none`. -/
def search_faq_by_id (faq_id : String) (resp : Except String (List QueryRow)) :
    Option FaqRecord :=
  match resp with
  | .error _ => none
  | .ok rows =>
    match rows with
    | [] => none
    | row :: _ =>
      some ⟨row.id, faq_id, row.question.getD "", row.answer.getD "", row.category.getD ""⟩

/-- C7: every database-client operation is total over failing remotes — a
transport/parse exception (`Except.error`) is converted into the operation's
failure value (`false` for create/update, `none` for find, the
collected-so-far list for the id listing) instead of propagating — and create
and update also return `false` on any non-200 response. -/
theorem client_ops_catch_failures :
    (∀ faq_data e, add_faq faq_data (Except.error e) = false)
    ∧ (∀ page_id upd e, update_faq page_id upd (Except.error e) = false)
    ∧ (∀ faq_id e rows, search_faq_by_id faq_id (Except.error e) = none
        ∧ (search_faq_by_id faq_id (Except.ok rows) = none ∨
           ∃ rec, search_faq_by_id faq_id (Except.ok rows) = some rec))
    ∧ (∀ e rest, get_all_faq_ids (Except.error e :: rest) = [])
    ∧ (∀ faq_data r, r.status_code ≠ 200 → add_faq faq_data (Except.ok r) = false)
    ∧ (∀ page_id upd r, r.status_code ≠ 200 →
        update_faq page_id upd (Except.ok r) = false) := by
  refine ⟨fun _ _ => rfl, fun _ _ _ => rfl, ?_, fun _ _ => rfl, ?_, ?_⟩
  · intro faq_id e rows
    refine ⟨rfl, ?_⟩
    cases rows with
    | nil => exact Or.inl rfl
    | cons row rest => exact Or.inr ⟨_, rfl⟩
  · intro faq_data r h
    simp [add_faq, h]
  · intro page_id upd r h
    simp [update_faq, h]

/-- Witness for C7: a transport error makes create return `false`, and a 500
response makes update return `false`. -/
theorem client_ops_catch_failures_witness :
    add_faq ⟨"0001", "Q", "A", "その他"⟩ (Except.error "timeout") = false
    ∧ ((500 : Nat) ≠ 200
        ∧ update_faq "pg" ⟨"Q", "A", "その他"⟩ (Except.ok ⟨500⟩) = false) :=
  ⟨client_ops_catch_failures.1 ⟨"0001", "Q", "A", "その他"⟩ "timeout",
    by decide,
    client_ops_catch_failures.2.2.2.2.2 "pg" ⟨"Q", "A", "その他"⟩ ⟨500⟩ (by decide)⟩

/-- C10: create and update report success exactly on HTTP status 200 — the
success boolean equals `status_code == 200`, so 201 and 204 are failures. -/
theorem create_update_success_iff_status_200 :
    (∀ faq_data r, add_faq faq_data (Except.ok r) = (r.status_code == 200))
    ∧ (∀ page_id upd r, update_faq page_id upd (Except.ok r) = (r.status_code == 200))
    ∧ add_faq ⟨"0001", "Q", "A", "その他"⟩ (Except.ok ⟨201⟩) = false
    ∧ add_faq ⟨"0001", "Q", "A", "その他"⟩ (Except.ok ⟨204⟩) = false
    ∧ update_faq "pg" ⟨"Q", "A", "その他"⟩ (Except.ok ⟨201⟩) = false
    ∧ update_faq "pg" ⟨"Q", "A", "その他"⟩ (Except.ok ⟨200⟩) = true :=
  ⟨fun _ _ => rfl, fun _ _ _ => rfl, rfl, rfl, rfl, rfl⟩

/- ### Suggestion engine (C3) -/

/-- The four-field suggestion object (app.py lines 179-185 / 205-210). -/
structure SuggestionResult where
  needs_update : Bool
  reason : String
  suggested_question : String
  suggested_answer : String
deriving DecidableEq

/-- The safe default built in the `except` branch of `get_faq_suggestions`
(app.py lines 203-210). -/
def suggestionFallback (current_faq : FaqRecord) : SuggestionResult :=
  ⟨false, "AI処理でエラーが発生しました", current_faq.question, current_faq.answer⟩

/-- `AIAssistant.get_faq_suggestions` (app.py lines 165-210).  `response` is
the generative call's outcome (`error` = transport error or non-2xx raised by
the SDK); `parseJson` is `json.loads` on the returned text, `none` when it
raises.  Any failure lands in the `except` branch producing the fallback. -/
def get_faq_suggestions (response : Except String String)
    (parseJson : String → Option SuggestionResult) (current_faq : FaqRecord) :
    SuggestionResult :=
  match response with
  | .error _ => suggestionFallback current_faq
  | .ok content =>
    match parseJson content with
    | some r => r
    | none => suggestionFallback current_faq

/-- C3: on any failure of the generative call — transport/non-2xx error or the
body failing to parse as JSON — `get_faq_suggestions` returns exactly
`needs_update = false`, the fixed processing-error reason, and the current
record's question and answer unchanged; being a total function, it propagates
no exception. -/
theorem get_faq_suggestions_fallback
    (response : Except String String) (parseJson : String → Option SuggestionResult)
    (current_faq : FaqRecord)
    (h : (∃ e, response = Except.error e)
        ∨ (∃ content, response = Except.ok content ∧ parseJson content = none)) :
    get_faq_suggestions response parseJson current_faq =
      ⟨false, "AI処理でエラーが発生しました", current_faq.question, current_faq.answer⟩ := by
  rcases h with ⟨e, rfl⟩ | ⟨content, rfl, hparse⟩
  · rfl
  · simp [get_faq_suggestions, hparse, suggestionFallback]

/-- Witness for C3: a response body that fails to parse yields the fallback on
a concrete record. -/
theorem get_faq_suggestions_fallback_witness :
    ((∃ e, (Except.ok "not json" : Except String String) = Except.error e)
        ∨ (∃ content, (Except.ok "not json" : Except String String) = Except.ok content
            ∧ (fun _ : String => (none : Option SuggestionResult)) content = none))
    ∧ get_faq_suggestions (Except.ok "not json") (fun _ => none)
        ⟨"pg", "0001", "Q0", "A0", "その他"⟩ =
      ⟨false, "AI処理でエラーが発生しました", "Q0", "A0"⟩ :=
  ⟨Or.inr ⟨"not json", rfl, rfl⟩,
    get_faq_suggestions_fallback (Except.ok "not json") (fun _ => none)
      ⟨"pg", "0001", "Q0", "A0", "その他"⟩ (Or.inr ⟨"not json", rfl, rfl⟩)⟩

/- ### Identity gate (C4) -/

/-- `st.session_state` as the app uses it: the authenticated flag, the
logged-in user's info, and the record loaded for update (absent unless a
search succeeded). -/
structure SessionState where
  authenticated : Bool
  user_email : String
  user_name : String
  current_faq : Option FaqRecord
deriving DecidableEq

/-- The login form submit handler (app.py lines 279-286): if the email ends
with `ALLOWED_DOMAIN`, mark the session authenticated and store email/name,
reporting success; otherwise leave the session untouched and report the
domain-policy error. -/
def login_submit (s : SessionState) (email name : String) : SessionState × String :=
  if pyEndsWith email ALLOWED_DOMAIN then
    ({ s with authenticated := true, user_email := email, user_name := name },
      "✅ ログインしました！")
  else
    (s, "❌ @dai.co.jpのドメインのみ利用可能です")

/-- The claims decoded from a verified OAuth token (app.py lines 215-218),
already defaulted: `idinfo.get(..., '')`. -/
structure GoogleIdInfo where
  email : String
  name : String
  picture : String
deriving DecidableEq

/-- The user info `verify_google_token` returns on acceptance (app.py lines
222-226). -/
structure UserInfo where
  email : String
  name : String
  picture : String
deriving DecidableEq

/-- `verify_google_token` (app.py lines 212-228): `idinfo` is the verification
outcome (`error` = the library raised); accepted only when the email ends with
`ALLOWED_DOMAIN`, else `none`. -/
def verify_google_token (idinfo : Except String GoogleIdInfo) : Option UserInfo :=
  match idinfo with
  | .error _ => none
  | .ok info =>
    if pyEndsWith info.email ALLOWED_DOMAIN then some ⟨info.email, info.name, info.picture⟩
    else none

/-- C4: from an unauthenticated session, the login form authenticates exactly
when the email ends with `"@dai.co.jp"`, whatever the name; on acceptance the
session carries that email/name, and the token path likewise accepts exactly
on the domain suffix.  `"user@other.com"` is rejected with the policy message;
`"user@dai.co.jp"` is accepted. -/
theorem login_accepts_iff_domain :
    (∀ s email name, s.authenticated = false →
        (login_submit s email name).1.authenticated = pyEndsWith email ALLOWED_DOMAIN)
    ∧ (∀ s email name, pyEndsWith email ALLOWED_DOMAIN = true →
        (login_submit s email name).1.user_email = email
        ∧ (login_submit s email name).1.user_name = name
        ∧ (login_submit s email name).2 = "✅ ログインしました！")
    ∧ (∀ s name, s.authenticated = false →
        (login_submit s "user@other.com" name).1.authenticated = false
        ∧ (login_submit s "user@other.com" name).2 =
            "❌ @dai.co.jpのドメインのみ利用可能です")
    ∧ (∀ s name, (login_submit s "user@dai.co.jp" name).1.authenticated = true)
    ∧ (∀ info, (verify_google_token (Except.ok info)).isSome =
        pyEndsWith info.email ALLOWED_DOMAIN) := by
  refine ⟨?_, ?_, ?_, ?_, ?_⟩
  · intro s email name hs
    by_cases h : pyEndsWith email ALLOWED_DOMAIN = true
    · simp [login_submit, h]
    · simp only [Bool.not_eq_true] at h
      simp [login_submit, h, hs]
  · intro s email name h
    simp [login_submit, h]
  · intro s name hs
    have h : pyEndsWith "user@other.com" ALLOWED_DOMAIN = false := by decide
    simp [login_submit, h, hs]
  · intro s name
    have h : pyEndsWith "user@dai.co.jp" ALLOWED_DOMAIN = true := by decide
    simp [login_submit, h]
  · intro info
    by_cases h : pyEndsWith info.email ALLOWED_DOMAIN = true
    · simp [verify_google_token, h]
    · simp only [Bool.not_eq_true] at h
      simp [verify_google_token, h]

/-- Witness for C4: from the initial unauthenticated session, a right-domain
email authenticates and a wrong-domain one does not. -/
theorem login_accepts_iff_domain_witness :
    ((⟨false, "", "", none⟩ : SessionState).authenticated = false
        ∧ (login_submit ⟨false, "", "", none⟩ "user@dai.co.jp" "山田太郎").1.authenticated =
            pyEndsWith "user@dai.co.jp" ALLOWED_DOMAIN)
    ∧ (login_submit ⟨false, "", "", none⟩ "user@other.com" "山田太郎").1.authenticated = false :=
  ⟨⟨rfl, login_accepts_iff_domain.1 ⟨false, "", "", none⟩ "user@dai.co.jp" "山田太郎" rfl⟩,
    (login_accepts_iff_domain.2.2.1 ⟨false, "", "", none⟩ "山田太郎" rfl).1⟩

/- ### Configuration gate (C8) -/

/-- The environment-supplied configuration (app.py lines 18-21): `none` models
an unset variable (`os.getenv` returning `None`). -/
structure Config where
  notion_token : Option String
  notion_database_id : Option String
  gemini_api_key : Option String
  google_client_id : Option String
deriving DecidableEq

/-- Python truthiness of an optional string: `None` and `""` are falsy. -/
def pyTruthy : Option String → Bool
  | none => false
  | some s => !s.isEmpty

/-- The `all([...])` check guarding store/AI use (app.py line 299): it names
only `NOTION_TOKEN`, `NOTION_DATABASE_ID` and `GEMINI_API_KEY`. -/
def config_check_passes (c : Config) : Bool :=
  pyTruthy c.notion_token && pyTruthy c.notion_database_id && pyTruthy c.gemini_api_key

/-- The configuration gate in `main` (app.py lines 298-301): on failure it
displays the error and returns before the Notion client is constructed, so no
store/AI operation runs; `none` means the app proceeds. -/
def main_config_gate (c : Config) : Option String :=
  if config_check_passes c then none
  else some "⚠️ 環境変数が不足しています。NOTION_TOKEN, NOTION_DATABASE_ID, GEMINI_API_KEYを設定してください。"

/-- A configuration with the identity-provider client id absent but the other
three credentials present. -/
def configNoGoogle : Config := ⟨some "tok", some "db", some "key", none⟩

/-- Counterexample to C8 as stated: with `GOOGLE_CLIENT_ID` absent (and the
other credentials present) the startup check still passes — the app proceeds
to store/AI operations instead of failing closed. -/
theorem missing_google_client_id_passes_check :
    pyTruthy configNoGoogle.google_client_id = false
    ∧ config_check_passes configNoGoogle = true
    ∧ main_config_gate configNoGoogle = none := by
  refine ⟨rfl, rfl, rfl⟩

/-- C8 amended: the startup gate requires only the store access token, the
store collection identifier and the generative-API key — if any of those three
is absent (or empty) it surfaces the configuration-error message and the app
returns before any store/AI operation; the identity-provider client identifier
is not checked and its absence never blocks. -/
theorem config_gate_checks_three_vars :
    (∀ c : Config,
        pyTruthy c.notion_token = false ∨ pyTruthy c.notion_database_id = false ∨
          pyTruthy c.gemini_api_key = false →
        main_config_gate c =
          some "⚠️ 環境変数が不足しています。NOTION_TOKEN, NOTION_DATABASE_ID, GEMINI_API_KEYを設定してください。")
    ∧ (∀ c : Config, main_config_gate c = none →
        pyTruthy c.notion_token = true ∧ pyTruthy c.notion_database_id = true
          ∧ pyTruthy c.gemini_api_key = true)
    ∧ (∀ t d k g, main_config_gate ⟨t, d, k, g⟩ = main_config_gate ⟨t, d, k, none⟩) := by
  refine ⟨?_, ?_, fun t d k g => rfl⟩
  · intro c h
    have hfail : config_check_passes c = false := by
      rcases h with h | h | h <;> simp [config_check_passes, h]
    simp [main_config_gate, hfail]
  · intro c h
    by_cases hc : config_check_passes c = true
    · have := hc
      simp only [config_check_passes, Bool.and_eq_true] at this
      exact ⟨this.1.1, this.1.2, this.2⟩
    · simp only [Bool.not_eq_true] at hc
      simp [main_config_gate, hc] at h

/-- Witness for C8 (amended): an absent store token triggers the
configuration-error message. -/
theorem config_gate_checks_three_vars_witness :
    (pyTruthy (Config.mk none (some "db") (some "key") (some "g")).notion_token = false
        ∨ pyTruthy (Config.mk none (some "db") (some "key") (some "g")).notion_database_id = false
        ∨ pyTruthy (Config.mk none (some "db") (some "key") (some "g")).gemini_api_key = false)
    ∧ main_config_gate ⟨none, some "db", some "key", some "g"⟩ =
        some "⚠️ 環境変数が不足しています。NOTION_TOKEN, NOTION_DATABASE_ID, GEMINI_API_KEYを設定してください。" :=
  ⟨Or.inl rfl,
    config_gate_checks_three_vars.1 ⟨none, some "db", some "key", some "g"⟩ (Or.inl rfl)⟩

/- ### Workflow handlers (C6, C9) -/

/-- Outcome of one user action: whether a remote store call was issued, and the
message displayed. -/
structure ActionResult where
  remote_called : Bool
  message : String
deriving DecidableEq

/-- The Add-Single submit handler (app.py lines 346-362): only when both
question and answer are truthy (non-empty) does it call `add_faq`; otherwise it
shows the required-fields error and issues no remote call.  `resp` is the
response the remote would give to the create call. -/
def add_single_submit (faq_id question answer category : String)
    (resp : Except String HttpResponse) : ActionResult :=
  if !question.isEmpty && !answer.isEmpty then
    if add_faq ⟨faq_id, question, answer, category⟩ resp then
      ⟨true, "✅ FAQが正常に追加されました！"⟩
    else
      ⟨true, "❌ FAQ追加に失敗しました"⟩
  else
    ⟨false, "❌ 質問と回答は必須です"⟩

/-- The Update-Search submit handler (app.py lines 413-424): an empty id shows
the input-required warning and issues no query; otherwise it queries, loading a
hit into `current_faq`. -/
def search_submit (s : SessionState) (search_id : String)
    (resp : Except String (List QueryRow)) : SessionState × ActionResult :=
  if !search_id.isEmpty then
    match search_faq_by_id search_id resp with
    | some faq => ({ s with current_faq := some faq }, ⟨true, "✅ FAQが見つかりました！"⟩)
    | none => (s, ⟨true, "❌ 指定されたFAQ IDが見つかりません"⟩)
  else
    (s, ⟨false, "⚠️ FAQ IDを入力してください"⟩)

/-- One CSV row as the batch loop reads it (app.py lines 390-392):
`row.get(column, default)`. -/
structure CsvRow where
  question : Option String
  answer : Option String
  category : Option String
deriving DecidableEq

/-- The body of the CSV batch loop for one row (app.py lines 384-400): it
builds `faq_data` from the row with defaults and calls `add_faq`
unconditionally — there is no emptiness check on question or answer.  Returns
whether a create call was issued and whether the row was counted a success. -/
def batch_row_submit (next_id : String) (row : CsvRow) (resp : Except String HttpResponse) :
    ActionResult :=
  let faq_data : FaqData :=
    ⟨next_id, row.question.getD "", row.answer.getD "", row.category.getD "その他"⟩
  if add_faq faq_data resp then ⟨true, "counted"⟩ else ⟨true, "not counted"⟩

/-- Counterexample to C6 as stated: a batch row with an empty question (and
empty answer) still issues a remote create call — the CSV loop performs no
local validation. -/
theorem batch_row_empty_still_calls_remote :
    (batch_row_submit "0001" ⟨some "", some "", none⟩ (Except.ok ⟨200⟩)).remote_called = true
    ∧ (batch_row_submit "0001" ⟨none, none, none⟩ (Except.error "down")).remote_called
        = true := ⟨rfl, rfl⟩

/-- C6 amended: Add-Single with an empty question or answer and Update-Search
with an empty id are each rejected locally with their specific message and no
remote call; but Add-Batch rows are not validated — a create call is issued
for every row, even with empty question or answer. -/
theorem empty_field_local_rejection :
    (∀ faq_id question answer category resp, question = "" ∨ answer = "" →
        add_single_submit faq_id question answer category resp =
          ⟨false, "❌ 質問と回答は必須です"⟩)
    ∧ (∀ s resp, search_submit s "" resp =
        (s, ⟨false, "⚠️ FAQ IDを入力してください"⟩))
    ∧ (∀ next_id row resp, (batch_row_submit next_id row resp).remote_called = true) := by
  refine ⟨?_, fun s resp => rfl, ?_⟩
  · intro faq_id question answer category resp h
    rcases h with rfl | rfl <;>
      simp [add_single_submit, show ("" : String).isEmpty = true from rfl]
  · intro next_id row resp
    unfold batch_row_submit
    cases h : add_faq ⟨next_id, row.question.getD "", row.answer.getD "",
        row.category.getD "その他"⟩ resp <;> simp [h]

/-- Witness for C6 (amended): an empty answer on Add-Single is rejected with no
remote call. -/
theorem empty_field_local_rejection_witness :
    (("Q" : String) = "" ∨ ("" : String) = "")
    ∧ add_single_submit "0001" "Q" "" "その他" (Except.ok ⟨200⟩) =
        ⟨false, "❌ 質問と回答は必須です"⟩ :=
  ⟨Or.inr rfl,
    empty_field_local_rejection.1 "0001" "Q" "" "その他" (Except.ok ⟨200⟩) (Or.inr rfl)⟩

/-- The manual update submit handler (app.py lines 459-472): calls
`update_faq` on the loaded record's page id with the edited fields; on success
deletes `current_faq` from the session; on failure the session is untouched. -/
def manual_update_submit (s : SessionState) (current_faq : FaqRecord)
    (new_question new_answer new_category : String) (resp : Except String HttpResponse) :
    SessionState × String :=
  if update_faq current_faq.page_id ⟨new_question, new_answer, new_category⟩ resp then
    ({ s with current_faq := none }, "✅ FAQが正常に更新されました！")
  else
    (s, "❌ FAQ更新に失敗しました")

/-- The AI-assisted update submit handler (app.py lines 514-527): identical
to the manual path, with the (possibly edited) suggested fields. -/
def ai_update_submit (s : SessionState) (current_faq : FaqRecord)
    (suggested_question suggested_answer new_category : String)
    (resp : Except String HttpResponse) : SessionState × String :=
  if update_faq current_faq.page_id ⟨suggested_question, suggested_answer, new_category⟩ resp
  then
    ({ s with current_faq := none }, "✅ FAQがGemini修正案で更新されました！")
  else
    (s, "❌ FAQ更新に失敗しました")

/-- C9: whenever the update call succeeds — in manual or AI-assisted mode —
the loaded record is cleared from session state; after a failed update call
the session state, loaded record included, is unchanged. -/
theorem update_success_clears_current_faq :
    (∀ s faq q a cat resp, update_faq faq.page_id ⟨q, a, cat⟩ resp = true →
        (manual_update_submit s faq q a cat resp).1.current_faq = none
        ∧ (ai_update_submit s faq q a cat resp).1.current_faq = none)
    ∧ (∀ s faq q a cat resp, update_faq faq.page_id ⟨q, a, cat⟩ resp = false →
        (manual_update_submit s faq q a cat resp).1 = s
        ∧ (ai_update_submit s faq q a cat resp).1 = s) := by
  constructor
  · intro s faq q a cat resp h
    constructor <;> simp [manual_update_submit, ai_update_submit, h]
  · intro s faq q a cat resp h
    constructor <;> simp [manual_update_submit, ai_update_submit, h]

/-- Witness for C9: with a loaded record in the session, a 200 update response
clears it, and a transport failure leaves the session unchanged. -/
theorem update_success_clears_current_faq_witness :
    update_faq (FaqRecord.page_id ⟨"pg", "0001", "Q", "A", "その他"⟩)
        ⟨"Q2", "A2", "その他"⟩ (Except.ok ⟨200⟩) = true
    ∧ (manual_update_submit
          ⟨true, "u@dai.co.jp", "u", some ⟨"pg", "0001", "Q", "A", "その他"⟩⟩
          ⟨"pg", "0001", "Q", "A", "その他"⟩ "Q2" "A2" "その他"
          (Except.ok ⟨200⟩)).1.current_faq = none
    ∧ update_faq (FaqRecord.page_id ⟨"pg", "0001", "Q", "A", "その他"⟩)
        ⟨"Q2", "A2", "その他"⟩ (Except.error "down") = false
    ∧ (ai_update_submit
          ⟨true, "u@dai.co.jp", "u", some ⟨"pg", "0001", "Q", "A", "その他"⟩⟩
          ⟨"pg", "0001", "Q", "A", "その他"⟩ "Q2" "A2" "その他"
          (Except.error "down")).1 =
        ⟨true, "u@dai.co.jp", "u", some ⟨"pg", "0001", "Q", "A", "その他"⟩⟩ :=
  ⟨rfl,
    (update_success_clears_current_faq.1
      ⟨true, "u@dai.co.jp", "u", some ⟨"pg", "0001", "Q", "A", "その他"⟩⟩
      ⟨"pg", "0001", "Q", "A", "その他"⟩ "Q2" "A2" "その他" (Except.ok ⟨200⟩) rfl).1,
    rfl,
    (update_success_clears_current_faq.2
      ⟨true, "u@dai.co.jp", "u", some ⟨"pg", "0001", "Q", "A", "その他"⟩⟩
      ⟨"pg", "0001", "Q", "A", "その他"⟩ "Q2" "A2" "その他" (Except.error "down") rfl).2⟩

end FaqApp
